import Mathlib

/-!
Shallow embedding of `opcua_plc_simulator.py` (the OPC UA PLC simulator
add-on): the type-coercion helpers `_to_bool` / `_cast`, the address-space
path normalization and node-identifier derivation from `PlcSimulator.setup`
and `PlcSimulator._ensure_object_path`, and the per-binding tick body of
`PlcSimulator._tick`.

Modelling conventions:
* Python scalar values are the inductive `Value` (bool / int / float / str).
  Python floats are modelled as exact rationals `ℚ`; IEEE-754 rounding is not
  modelled (none of the verified properties depends on rounding).
* Python exceptions (`ValueError` from failed numeric conversions) are
  modelled with `Except PyErr`.  The bare `except Exception` handlers around
  the substrate read/write calls in `_tick` are modelled by the `readFail` /
  `writeFail` flags of `Env`.
* `random.uniform`, `random.choice` and `math.sin` are modelled as oracle
  fields of `Env` (the tick consumes them but their distribution is
  irrelevant to every property proved here).
* String parsing for `float(...)` / `int(...)` models the plain decimal
  literal forms (optional sign, digits, optional fraction); exponents,
  `inf`/`nan` and underscore separators are outside the modelled input set.
-/

set_option autoImplicit false

namespace OpcuaSim

/-- A Python exception as raised by a failed numeric conversion. -/
inductive PyErr where
  | valueError
  deriving Repr, DecidableEq

/-- A Python scalar value: `bool`, `int`, `float` (modelled as `ℚ`) or `str`. -/
inductive Value where
  | vBool (b : Bool)
  | vInt (n : Int)
  | vFloat (q : ℚ)
  | vStr (s : String)
  deriving Repr, DecidableEq

/-- The ASCII whitespace characters stripped by Python's `str.strip()`.
(Non-ASCII whitespace is outside the modelled input set.) -/
def pySpace (c : Char) : Bool :=
  c = ' ' || c = '\t' || c = '\n' || c = '\x0d' || c = '\x0b' || c = '\x0c'

/-- `str.strip()`: drop leading and trailing whitespace. -/
def strTrim (s : String) : String :=
  ⟨((s.data.dropWhile pySpace).reverse.dropWhile pySpace).reverse⟩

/-- ASCII lowercasing of one character, as `str.lower()` acts on ASCII.
(Non-ASCII letters are outside the modelled input set.) -/
def lowerChar (c : Char) : Char :=
  if 65 ≤ c.toNat ∧ c.toNat ≤ 90 then Char.ofNat (c.toNat + 32) else c

/-- `str.lower()` on an ASCII string. -/
def strLower (s : String) : String :=
  ⟨s.data.map lowerChar⟩

/-- `str.split("/")` on the character list: split on every slash, keeping
empty segments, exactly as Python's single-separator `split`. -/
def splitSlash : List Char → List (List Char)
  | [] => [[]]
  | c :: rest =>
    let r := splitSlash rest
    if c = '/' then [] :: r
    else
      match r with
      | [] => [[c]]
      | g :: gs => (c :: g) :: gs

/-- `path.replace("/", ".")`. -/
def replaceSlashDot (s : String) : String :=
  ⟨s.data.map (fun c => if c = '/' then '.' else c)⟩

/-- Decimal digits of a character list, folded to a natural number. -/
def digitsVal (cs : List Char) : Nat :=
  cs.foldl (fun a c => a * 10 + (c.toNat - 48)) 0

/-- Unsigned decimal literal: `digits`, `digits.digits`, `digits.` or `.digits`. -/
def parseUnsignedFloat (cs : List Char) : Option ℚ :=
  let p := cs.span Char.isDigit
  match p.2 with
  | [] => if p.1.isEmpty then none else some ((digitsVal p.1 : ℚ))
  | c :: fr =>
    if c = '.' && fr.all Char.isDigit && (!p.1.isEmpty || !fr.isEmpty) then
      some ((digitsVal p.1 : ℚ) + (digitsVal fr : ℚ) / ((10 : ℚ) ^ fr.length))
    else
      none

/-- Models CPython `float(s)` on a string: strip, optional sign, decimal literal. -/
def parseFloatStr (s : String) : Option ℚ :=
  match (strTrim s).data with
  | '+' :: cs => parseUnsignedFloat cs
  | '-' :: cs => (parseUnsignedFloat cs).map Neg.neg
  | cs => parseUnsignedFloat cs

/-- Models CPython `int(s)` on a string: strip, optional sign, digits only. -/
def parseIntStr (s : String) : Option Int :=
  let core : List Char → Option Int := fun cs =>
    if !cs.isEmpty && cs.all Char.isDigit then some ((digitsVal cs : Int)) else none
  match (strTrim s).data with
  | '+' :: cs => core cs
  | '-' :: cs => (core cs).map Neg.neg
  | cs => core cs

/-- Truncation toward zero, as in CPython `int(float)`. -/
def ratTrunc (q : ℚ) : Int :=
  if 0 ≤ q then ⌊q⌋ else ⌈q⌉

/-- Rendering of a float, standing in for CPython `str(float)`.  The exact
shortest-roundtrip formatting of CPython is abstracted: integral values render
as `n.0`, others as the rational's own representation.  No verified property
depends on the printed form of a float. -/
def floatRepr (q : ℚ) : String :=
  if q.den = 1 then toString q.num ++ ".0" else toString q

/-- Models CPython `str(value)` on a scalar. -/
def pyStr : Value → String
  | .vBool b => if b then "True" else "False"
  | .vInt n => toString n
  | .vFloat q => floatRepr q
  | .vStr s => s

/-- Models CPython truthiness `bool(value)` on a scalar (used for `if raw_node_id:`). -/
def pyTruthy : Value → Bool
  | .vBool b => b
  | .vInt n => n ≠ 0
  | .vFloat q => q ≠ 0
  | .vStr s => s ≠ ""

/-- Models CPython `float(value)` on a scalar; raises `ValueError` on an
unparsable string. -/
def pyFloat : Value → Except PyErr ℚ
  | .vBool b => .ok (if b then 1 else 0)
  | .vInt n => .ok (n : ℚ)
  | .vFloat q => .ok q
  | .vStr s =>
    match parseFloatStr s with
    | some q => .ok q
    | none => .error .valueError

/-- Models CPython `int(value)` on a scalar; raises `ValueError` on an
unparsable string (used for `int(b.simulation.get("interval_ms", ...))`). -/
def pyInt : Value → Except PyErr Int
  | .vBool b => .ok (if b then 1 else 0)
  | .vInt n => .ok n
  | .vFloat q => .ok (ratTrunc q)
  | .vStr s =>
    match parseIntStr s with
    | some n => .ok n
    | none => .error .valueError

/-- The truthy strings of `_to_bool`. -/
def truthyStrings : List String := ["1", "true", "yes", "on"]

/-- `_to_bool(value)` from the source: booleans pass through, numbers by
nonzero test, everything else stringified / stripped / lowercased and matched
against `{"1", "true", "yes", "on"}`. -/
def toBoolPy : Value → Bool
  | .vBool b => b
  | .vInt n => n ≠ 0
  | .vFloat q => q ≠ 0
  | .vStr s => decide (strLower (strTrim s) ∈ truthyStrings)

/-- The integer type tags of `_cast`. -/
def intTypeTags : List String := ["int", "integer", "int32", "int64", "uint16", "uint32"]

/-- The float type tags of `_cast`. -/
def floatTypeTags : List String := ["float", "double", "number"]

/-- The boolean type tags of `_cast`. -/
def boolTypeTags : List String := ["bool", "boolean"]

/-- `_cast(dtype, value)` from the source: normalize the tag, then
bool → `_to_bool`, int-family → `int(float(value))`, float-family →
`float(value)`, anything else → `str(value)`.  The numeric branches raise
exactly when the float conversion of the raw value raises. -/
def pyCast (dtype : String) (v : Value) : Except PyErr Value :=
  let d := strTrim (strLower dtype)
  if d ∈ boolTypeTags then
    .ok (.vBool (toBoolPy v))
  else if d ∈ intTypeTags then
    match pyFloat v with
    | .ok q => .ok (.vInt (ratTrunc q))
    | .error e => .error e
  else if d ∈ floatTypeTags then
    match pyFloat v with
    | .ok q => .ok (.vFloat q)
    | .error e => .error e
  else
    .ok (.vStr (pyStr v))

/-- Path normalization shared by `_ensure_object_path` and `_split_path`:
`"/".join([p for p in path.split("/") if p])`. -/
def normalizePath (path : String) : String :=
  ⟨List.intercalate ['/'] ((splitSlash path.data).filter (fun g => g ≠ []))⟩

/-- Node-identifier derivation for a variable from `PlcSimulator.setup`
(lines 170–177): an explicit truthy `node_id` is used verbatim (prefixed with
`ns=<i>;s=` when it does not already start with `ns=`); otherwise the id is
`ns=<i>;s=` followed by the RAW configured path with `/` replaced by `.`. -/
def deriveNodeId (nsIdx : Int) (path : String) (rawNodeId : Option Value) : String :=
  match rawNodeId with
  | some rv =>
    if pyTruthy rv then
      let nid := pyStr rv
      if "ns=".data.isPrefixOf nid.data then nid
      else "ns=" ++ toString nsIdx ++ ";s=" ++ nid
    else
      "ns=" ++ toString nsIdx ++ ";s=" ++ replaceSlashDot path
  | none => "ns=" ++ toString nsIdx ++ ";s=" ++ replaceSlashDot path

/-- The float constant `math.pi`: the exact rational value of the IEEE-754
double nearest π (bit pattern 0x400921FB54442D18). -/
def mathPi : ℚ := 884279719003555 / 281474976710656

/-- The `values` entry of a simulation dict: the code checks
`isinstance(values, list)`, so the entry may be a scalar (then ignored) or a
list of scalars.  Nested lists are outside the modelled input set. -/
inductive ValuesField where
  | scalar (v : Value)
  | ofList (vs : List Value)
  deriving Repr, DecidableEq

/-- The simulation dict of a binding (`b.simulation`): each `.get(key, d)` of
the source is an `Option` field here, with the code's default applied at the
use site. -/
structure Simulation where
  mode : Option Value := none
  interval_ms : Option Value := none
  step : Option Value := none
  min : Option Value := none
  max : Option Value := none
  period_ms : Option Value := none
  values : Option ValuesField := none
  deriving Repr, DecidableEq

/-- `SimBinding` from the source, minus the substrate node handle: the node's
currently stored value is threaded separately through the tick. -/
structure SimBinding where
  node_id : String
  dtype : String
  simulation : Simulation
  next_due : ℚ
  cycle_index : Int := 0
  phase : ℚ := 0
  deriving Repr, DecidableEq

/-- Oracle environment for one binding's tick: whether the substrate read /
write call raises (the two bare `except Exception` handlers), the outcome of
`random.uniform(a, b)`, the outcome of `random.choice` (as an index), and
`math.sin`. -/
structure Env where
  readFail : Bool
  writeFail : Bool
  uniform : ℚ → ℚ → ℚ
  choiceIdx : Nat
  sinF : ℚ → ℚ

/-- `str(b.simulation.get("mode", "")).lower().strip()` (line 240). -/
def modeOf (b : SimBinding) : String :=
  strTrim (strLower (pyStr (b.simulation.mode.getD (.vStr ""))))

/-- Lines 240–283 of `_tick`: dispatch on the normalized mode string and
compute `new_value`, updating `cycle_index` (cycle) or `phase` (sine) on the
way.  Branches that apply `float(...)` to a parameter or to the current value
can raise; the others are total. -/
def computeValue (env : Env) (b : SimBinding) (intervalMs : Int) (current : Value) :
    Except PyErr (SimBinding × Value) :=
  let mode := modeOf b
  if mode = "toggle" then
    .ok (b, .vBool (!toBoolPy current))
  else if mode = "random_walk" then
    match pyFloat (b.simulation.step.getD (.vFloat 1)) with
    | .error e => .error e
    | .ok step =>
      match pyFloat (b.simulation.min.getD (.vFloat 0)) with
      | .error e => .error e
      | .ok minimum =>
        match pyFloat (b.simulation.max.getD (.vFloat 100)) with
        | .error e => .error e
        | .ok maximum =>
          match pyFloat current with
          | .error e => .error e
          | .ok cur =>
            .ok (b, .vFloat (Max.max minimum
                  (Min.min maximum (cur + env.uniform (-step) step))))
  else if mode = "random_choice" then
    match b.simulation.values.getD (.ofList []) with
    | .ofList (v :: vs) => .ok (b, (v :: vs).getD (env.choiceIdx % (v :: vs).length) (.vInt 0))
    | _ => .ok (b, current)
  else if mode = "cycle" then
    match b.simulation.values.getD (.ofList []) with
    | .ofList (v :: vs) =>
      let idx : Int := (b.cycle_index + 1) % ((v :: vs).length : Int)
      .ok ({ b with cycle_index := idx }, (v :: vs).getD idx.toNat (.vInt 0))
    | _ => .ok (b, current)
  else if mode = "ramp" then
    match pyFloat (b.simulation.step.getD (.vFloat 1)) with
    | .error e => .error e
    | .ok step =>
      match pyFloat (b.simulation.min.getD (.vFloat 0)) with
      | .error e => .error e
      | .ok minimum =>
        match pyFloat (b.simulation.max.getD (.vFloat 100)) with
        | .error e => .error e
        | .ok maximum =>
          match pyFloat current with
          | .error e => .error e
          | .ok cur0 =>
            let cur1 := cur0 + step
            let cur2 := if cur1 > maximum then minimum else cur1
            let cur3 := if cur2 < minimum then maximum else cur2
            .ok (b, .vFloat cur3)
  else if mode = "sine" then
    match pyFloat (b.simulation.min.getD (.vFloat 0)) with
    | .error e => .error e
    | .ok minimum =>
      match pyFloat (b.simulation.max.getD (.vFloat 100)) with
      | .error e => .error e
      | .ok maximum =>
        match pyFloat (b.simulation.period_ms.getD (.vFloat 5000)) with
        | .error e => .error e
        | .ok period =>
          let phase := b.phase + (2 * mathPi) * ((intervalMs : ℚ) / (Max.max period 10))
          let center := (maximum + minimum) / 2
          let amp := (maximum - minimum) / 2
          .ok ({ b with phase := phase }, .vFloat (center + amp * env.sinF phase))
  else
    .ok (b, current)

/-- One binding's pass through the body of `_tick` (lines 230–291): compute
`interval_ms`, check the due time, read the node (a read failure skips the
binding, `continue`), compute and cast the new value, write it back (a write
failure is swallowed), and advance `next_due = now + interval_ms / 1000`.
Returns the updated binding together with the node's stored value
afterwards. -/
def tickBinding (env : Env) (defaultTickMs : Int) (now : ℚ) (b : SimBinding)
    (nodeVal : Value) : Except PyErr (SimBinding × Value) :=
  match pyInt (b.simulation.interval_ms.getD (.vInt defaultTickMs)) with
  | .error e => .error e
  | .ok k =>
    if now < b.next_due then
      .ok (b, nodeVal)
    else if env.readFail then
      .ok (b, nodeVal)
    else
      match computeValue env b k nodeVal with
      | .error e => .error e
      | .ok r =>
        match pyCast b.dtype r.2 with
        | .error e => .error e
        | .ok casted =>
          .ok ({ r.1 with next_due := now + (k : ℚ) / 1000 },
               if env.writeFail then nodeVal else casted)

/-- The value computation followed by the final `_cast` (lines 240–285): the
portion of the tick body that sits outside the two `try/except` guards. -/
def castPipeline (env : Env) (b : SimBinding) (intervalMs : Int) (current : Value) :
    Except PyErr Value :=
  match computeValue env b intervalMs current with
  | .error e => .error e
  | .ok r => pyCast b.dtype r.2

/-- Whether an `Except` result is a success. -/
def okB {ε α : Type} : Except ε α → Bool
  | .ok _ => true
  | .error _ => false

/-- Line 165 of `setup`: the initial value of a variable whose descriptor
omits `initial` is `_cast(dtype, False if dtype == "bool" else 0)`. -/
def codeDefaultInitial (dtype : String) : Except PyErr Value :=
  pyCast dtype (if dtype = "bool" then .vBool false else .vInt 0)

/-- The claim's reading of the same default: `coerce(type, false)` when the
declared type is boolean, `coerce(type, 0)` otherwise (decided on the
normalized tag).  Compared against `codeDefaultInitial`. -/
def claimDefaultInitial (dtype : String) : Except PyErr Value :=
  if strTrim (strLower dtype) ∈ boolTypeTags then pyCast dtype (.vBool false)
  else pyCast dtype (.vInt 0)

/-- Decidable equality of `Except` results, for concrete evaluation. -/
instance instDecEqExcept {ε α : Type} [DecidableEq ε] [DecidableEq α] :
    DecidableEq (Except ε α) := fun x y =>
  match x, y with
  | .ok a, .ok b =>
    if h : a = b then .isTrue (congrArg Except.ok h)
    else .isFalse (fun hxy => h (Except.ok.inj hxy))
  | .error a, .error b =>
    if h : a = b then .isTrue (congrArg Except.error h)
    else .isFalse (fun hxy => h (Except.error.inj hxy))
  | .ok _, .error _ => .isFalse (fun hxy => Except.noConfusion hxy)
  | .error _, .ok _ => .isFalse (fun hxy => Except.noConfusion hxy)

/-- A benign oracle: reads and writes succeed, the random and trig oracles
return fixed values. -/
def envOk : Env :=
  { readFail := false, writeFail := false, uniform := fun _ _ => 0,
    choiceIdx := 0, sinF := fun _ => 0 }

/-- An oracle whose substrate read raises. -/
def envReadFail : Env := { envOk with readFail := true }

/-- An oracle whose substrate write raises. -/
def envWriteFail : Env := { envOk with writeFail := true }

/-- The `Mode` variable of the example configuration: a string-typed cycle
over `[Idle, Setup, Auto, Alarm]` (interval 1000 ms for compact arithmetic). -/
def cycleSim : Simulation :=
  { mode := some (.vStr "cycle"), interval_ms := some (.vInt 1000),
    values := some (.ofList [.vStr "Idle", .vStr "Setup", .vStr "Auto", .vStr "Alarm"]) }

/-- The cycle example binding before its first due tick. -/
def cycleB0 : SimBinding :=
  { node_id := "ns=2;s=Machine.Mode", dtype := "string", simulation := cycleSim,
    next_due := 1 }

/-- The `RPM` variable of the example configuration: an integer ramp with
`min = 0`, `max = 3000`, `step = 150`. -/
def rampB : SimBinding :=
  { node_id := "ns=2;s=Machine.RPM", dtype := "int",
    simulation := { mode := some (.vStr "ramp"), interval_ms := some (.vInt 800),
                    min := some (.vInt 0), max := some (.vInt 3000),
                    step := some (.vInt 150) },
    next_due := 0 }

/-- A float-typed binding with an unrecognized mode, used to exhibit an
uncaught `ValueError` when the read-back value is a non-numeric string. -/
def holdFloatB : SimBinding :=
  { node_id := "ns=2;s=Machine.X", dtype := "float",
    simulation := { mode := some (.vStr "steady"), interval_ms := some (.vInt 1000) },
    next_due := 0 }

/-- A bool-typed binding with an unrecognized mode: the tick writes back the
coerced value, turning an integer reading into a boolean. -/
def holdBoolB : SimBinding :=
  { node_id := "ns=2;s=Machine.Y", dtype := "bool",
    simulation := { mode := some (.vStr "steady"), interval_ms := some (.vInt 1000) },
    next_due := 0 }

/-- A string-typed binding with an unrecognized mode: coercion fixes the
read-back string, so the tick leaves the node's value unchanged. -/
def holdStrB : SimBinding :=
  { node_id := "ns=2;s=Machine.W", dtype := "string",
    simulation := { mode := some (.vStr "steady"), interval_ms := some (.vInt 1000) },
    next_due := 0 }

/-- A toggle binding with a negative configured interval, driving `next_due`
backward. -/
def negIntervalB : SimBinding :=
  { node_id := "ns=2;s=Machine.Z", dtype := "bool",
    simulation := { mode := some (.vStr "toggle"), interval_ms := some (.vInt (-2000)) },
    next_due := 0 }

/-- The cycle example binding after its first due tick. -/
def cycleB1 : SimBinding := { cycleB0 with cycle_index := 1, next_due := 2 }

/-- The cycle example binding after its second due tick. -/
def cycleB2 : SimBinding := { cycleB0 with cycle_index := 2, next_due := 3 }

/-- The cycle example binding after its third due tick. -/
def cycleB3 : SimBinding := { cycleB0 with cycle_index := 3, next_due := 4 }

/-- The cycle example binding after its fourth due tick (index wrapped to 0). -/
def cycleB4 : SimBinding := { cycleB0 with cycle_index := 0, next_due := 5 }

/-- Evaluation lemma for a successful pass through the tick body: a due
binding with working read and write ends with the computed binding state, the
coerced value stored on the node, and `next_due = now + interval/1000`. -/
theorem tickBinding_ok_eval (env : Env) (defaultTickMs : Int) (now : ℚ)
    (b b1 : SimBinding) (nodeVal w c : Value) (k : Int)
    (hk : pyInt (b.simulation.interval_ms.getD (.vInt defaultTickMs)) = .ok k)
    (hdue : b.next_due ≤ now)
    (hr : env.readFail = false)
    (hw : env.writeFail = false)
    (hcomp : computeValue env b k nodeVal = .ok (b1, w))
    (hcast : pyCast b.dtype w = .ok c) :
    tickBinding env defaultTickMs now b nodeVal =
      .ok ({ b1 with next_due := now + (k : ℚ) / 1000 }, c) := by
  unfold tickBinding
  rw [hk]
  simp [not_lt.2 hdue, hr, hcomp, hcast, hw]

/-- Claim C1 counterexample: the descriptors with paths
`"Machine/StackLight/Green"` and `"/Machine/StackLight/Green"` (no explicit
identifier) have paths that normalize to the same string, yet they receive
different derived identifiers — `setup` derives the identifier from the raw
path, not the normalized one. -/
theorem c1_counterexample :
    normalizePath "/Machine/StackLight/Green" = normalizePath "Machine/StackLight/Green" ∧
    deriveNodeId 2 "/Machine/StackLight/Green" none ≠
      deriveNodeId 2 "Machine/StackLight/Green" none := by
  constructor
  · rfl
  · decide

/-- Claim C1 (amended): the derived identifier is a pure function of the RAW
configured path (slashes replaced by dots).  Restricted to already-normalized
paths it is a pure function of the normalized path, and for the path
`"Machine/StackLight/Green"` with namespace index 2 the derived identifier is
exactly `"ns=2;s=Machine.StackLight.Green"`. -/
theorem c1_derived_id_of_normalized_path (i : Int) (p₁ p₂ : String)
    (h₁ : normalizePath p₁ = p₁) (h₂ : normalizePath p₂ = p₂)
    (h : normalizePath p₁ = normalizePath p₂) :
    deriveNodeId i p₁ none = deriveNodeId i p₂ none ∧
    deriveNodeId i p₁ none =
      "ns=" ++ toString i ++ ";s=" ++ replaceSlashDot (normalizePath p₁) ∧
    deriveNodeId 2 "Machine/StackLight/Green" none = "ns=2;s=Machine.StackLight.Green" := by
  have e : p₁ = p₂ := by rw [← h₁, h, h₂]
  refine ⟨by rw [e], ?_, by decide⟩
  rw [h₁]
  rfl

/-- Witness for `c1_derived_id_of_normalized_path` at the concrete example
path. -/
theorem c1_derived_id_of_normalized_path_witness :
    normalizePath "Machine/StackLight/Green" = "Machine/StackLight/Green" ∧
    deriveNodeId 2 "Machine/StackLight/Green" none = "ns=2;s=Machine.StackLight.Green" :=
  ⟨by decide,
   (c1_derived_id_of_normalized_path 2 "Machine/StackLight/Green" "Machine/StackLight/Green"
       (by decide) (by decide) rfl).2.2⟩

/-- Claim C3 counterexample: coercion CAN raise — `_cast("float", "abc")`
raises `ValueError` (the claim quantifies over every scalar raw value). -/
theorem c3_counterexample : pyCast "float" (.vStr "abc") = .error .valueError := by
  decide

/-- Claim C3 (amended): coercion to a boolean or non-numeric (string) type
never raises, and unrecognized boolean strings coerce to `false`; coercion to
an int/float family tag raises exactly when the float conversion of the raw
value raises (that is, on non-numeric strings). -/
theorem c3_cast_fail_characterization (dtype : String) (v : Value) (s : String)
    (hs : strLower (strTrim s) ∉ truthyStrings) :
    (okB (pyCast dtype v) = false ↔
      (strTrim (strLower dtype) ∉ boolTypeTags ∧
       (strTrim (strLower dtype) ∈ intTypeTags ∨
        strTrim (strLower dtype) ∈ floatTypeTags) ∧
       okB (pyFloat v) = false)) ∧
    pyCast "bool" (.vStr s) = .ok (.vBool false) := by
  constructor
  · by_cases hb : strTrim (strLower dtype) ∈ boolTypeTags
    · simp [pyCast, okB, hb]
    · by_cases hi : strTrim (strLower dtype) ∈ intTypeTags
      · cases hv : pyFloat v <;> simp [pyCast, okB, hb, hi, hv]
      · by_cases hf : strTrim (strLower dtype) ∈ floatTypeTags
        · cases hv : pyFloat v <;> simp [pyCast, okB, hb, hi, hf, hv]
        · simp [pyCast, okB, hb, hi, hf]
  · have h : pyCast "bool" (.vStr s) =
        .ok (.vBool (toBoolPy (.vStr s))) := rfl
    rw [h]
    have h2 : toBoolPy (.vStr s) = false := by
      unfold toBoolPy
      exact decide_eq_false hs
    rw [h2]

/-- Witness for `c3_cast_fail_characterization` at `dtype = "int"`,
`v = "7"`, `s = "Maybe"`. -/
theorem c3_cast_fail_characterization_witness :
    strLower (strTrim "Maybe") ∉ truthyStrings ∧
    ((okB (pyCast "int" (.vStr "7")) = false ↔
      (strTrim (strLower "int") ∉ boolTypeTags ∧
       (strTrim (strLower "int") ∈ intTypeTags ∨
        strTrim (strLower "int") ∈ floatTypeTags) ∧
       okB (pyFloat (.vStr "7")) = false)) ∧
     pyCast "bool" (.vStr "Maybe") = .ok (.vBool false)) :=
  ⟨by decide, c3_cast_fail_characterization "int" (.vStr "7") "Maybe" (by decide)⟩

/-- Claim C10: a variable descriptor that omits `initial` gets initial value
`coerce(type, false)` when the declared type is boolean and `coerce(type, 0)`
otherwise; in particular an int variable starts at `0`, a float variable at
`0.0`, and a string variable at the string `"0"`, not the empty string. -/
theorem c10_default_initial :
    (∀ dtype : String, codeDefaultInitial dtype = claimDefaultInitial dtype) ∧
    codeDefaultInitial "bool" = .ok (.vBool false) ∧
    codeDefaultInitial "int" = .ok (.vInt 0) ∧
    codeDefaultInitial "float" = .ok (.vFloat 0) ∧
    codeDefaultInitial "string" = .ok (.vStr "0") ∧
    Value.vStr "0" ≠ Value.vStr "" := by
  refine ⟨?_, by decide, by decide, by decide, by decide, by decide⟩
  intro d
  unfold codeDefaultInitial claimDefaultInitial
  by_cases hb : strTrim (strLower d) ∈ boolTypeTags
  · rw [if_pos hb]
    by_cases hd : d = "bool"
    · rw [if_pos hd, hd]
    · rw [if_neg hd]
      simp [pyCast, hb, toBoolPy]
  · rw [if_neg hb]
    by_cases hd : d = "bool"
    · subst hd
      exact absurd (by decide) hb
    · rw [if_neg hd]

/-- Claim C2 counterexample: with a float-typed binding in an unrecognized
mode, a successful substrate read returning the string `"abc"` makes the tick
body raise `ValueError` at the final `_cast` (line 285 sits outside both
`try/except` guards), so an error does propagate out of the tick loop. -/
theorem c2_counterexample :
    tickBinding envOk 1000 0 holdFloatB (.vStr "abc") = .error .valueError := by
  decide

/-- Claim C2 (amended): substrate read and write failures never escape one
invocation of the tick body — for every oracle, including one whose read or
write raises, the tick returns normally provided the unguarded conversions
succeed: the interval converts to an int, and the mode computation followed
by the final `_cast` succeeds on the value read back. -/
theorem c2_tick_absorbs_io_failures (env : Env) (defaultTickMs : Int) (now : ℚ)
    (b : SimBinding) (nodeVal : Value) (k : Int)
    (hk : pyInt (b.simulation.interval_ms.getD (.vInt defaultTickMs)) = .ok k)
    (hpipe : okB (castPipeline env b k nodeVal) = true) :
    okB (tickBinding env defaultTickMs now b nodeVal) = true := by
  unfold tickBinding
  rw [hk]
  by_cases hlt : now < b.next_due
  · simp [hlt, okB]
  · cases hr : env.readFail with
    | true => simp [hlt, hr, okB]
    | false =>
      unfold castPipeline at hpipe
      cases hcomp : computeValue env b k nodeVal with
      | error e =>
        rw [hcomp] at hpipe
        have hpipe2 : okB (Except.error (α := Value) e) = true := hpipe
        simp [okB] at hpipe2
      | ok r =>
        rw [hcomp] at hpipe
        have hpipe2 : okB (pyCast b.dtype r.2) = true := hpipe
        cases hcast : pyCast b.dtype r.2 with
        | error e =>
          rw [hcast] at hpipe2
          simp [okB] at hpipe2
        | ok c =>
          simp [hlt, hr, hcomp, hcast, okB]

/-- Witness for `c2_tick_absorbs_io_failures`: the cycle example binding,
under an oracle whose write raises, still ticks successfully. -/
theorem c2_tick_absorbs_io_failures_witness :
    pyInt (cycleB0.simulation.interval_ms.getD (.vInt 1000)) = .ok 1000 ∧
    okB (castPipeline envWriteFail cycleB0 1000 (.vStr "Idle")) = true ∧
    okB (tickBinding envWriteFail 1000 1 cycleB0 (.vStr "Idle")) = true :=
  ⟨by decide, by decide,
   c2_tick_absorbs_io_failures envWriteFail 1000 1 cycleB0 (.vStr "Idle") 1000
     (by decide) (by decide)⟩

/-- Claim C4: a due binding whose substrate read fails is left completely
unchanged by the tick: no write happens (the node keeps its value) and
`next_due`, `cycle_index` and `phase` keep their values, so the binding is
still due and is retried on the very next tick. -/
theorem c4_read_failure_skips_binding (env : Env) (defaultTickMs : Int) (now : ℚ)
    (b : SimBinding) (nodeVal : Value) (k : Int)
    (hk : pyInt (b.simulation.interval_ms.getD (.vInt defaultTickMs)) = .ok k)
    (hdue : b.next_due ≤ now)
    (hr : env.readFail = true) :
    tickBinding env defaultTickMs now b nodeVal = .ok (b, nodeVal) := by
  unfold tickBinding
  rw [hk]
  simp [not_lt.2 hdue, hr]

/-- Witness for `c4_read_failure_skips_binding`: the cycle example binding,
due at time 5 under a failing read, is returned untouched. -/
theorem c4_read_failure_skips_binding_witness :
    pyInt (cycleB0.simulation.interval_ms.getD (.vInt 1000)) = .ok 1000 ∧
    cycleB0.next_due ≤ 5 ∧ envReadFail.readFail = true ∧
    tickBinding envReadFail 1000 5 cycleB0 (.vStr "Idle") = .ok (cycleB0, .vStr "Idle") :=
  ⟨by decide, by decide, by decide,
   c4_read_failure_skips_binding envReadFail 1000 5 cycleB0 (.vStr "Idle") 1000
     (by decide) (by decide) (by decide)⟩

/-- Claim C5: a due binding whose substrate write fails raises nothing: the
computed value is discarded (the node keeps the value that was read) while
the binding still updates and `next_due` advances to `now + interval/1000`,
so the failed write is not retried before the next full interval elapses. -/
theorem c5_write_failure_advances_schedule (env : Env) (defaultTickMs : Int) (now : ℚ)
    (b b1 : SimBinding) (nodeVal w c : Value) (k : Int)
    (hk : pyInt (b.simulation.interval_ms.getD (.vInt defaultTickMs)) = .ok k)
    (hdue : b.next_due ≤ now)
    (hr : env.readFail = false)
    (hcomp : computeValue env b k nodeVal = .ok (b1, w))
    (hcast : pyCast b.dtype w = .ok c)
    (hw : env.writeFail = true) :
    tickBinding env defaultTickMs now b nodeVal =
      .ok ({ b1 with next_due := now + (k : ℚ) / 1000 }, nodeVal) := by
  unfold tickBinding
  rw [hk]
  simp [not_lt.2 hdue, hr, hcomp, hcast, hw]

/-- Witness for `c5_write_failure_advances_schedule`: the cycle example
binding under a failing write advances `next_due` from 1 to 2, keeps the
node's old value and raises nothing. -/
theorem c5_write_failure_advances_schedule_witness :
    pyInt (cycleB0.simulation.interval_ms.getD (.vInt 1000)) = .ok 1000 ∧
    cycleB0.next_due ≤ 1 ∧ envWriteFail.readFail = false ∧
    computeValue envWriteFail cycleB0 1000 (.vStr "Idle") =
      .ok ({ cycleB0 with cycle_index := 1 }, .vStr "Setup") ∧
    pyCast cycleB0.dtype (.vStr "Setup") = .ok (.vStr "Setup") ∧
    envWriteFail.writeFail = true ∧
    tickBinding envWriteFail 1000 1 cycleB0 (.vStr "Idle") =
      .ok ({ { cycleB0 with cycle_index := 1 } with next_due := 1 + (1000 : ℚ) / 1000 },
           .vStr "Idle") :=
  ⟨by decide, by decide, by decide, by decide, by decide, by decide,
   c5_write_failure_advances_schedule envWriteFail 1000 1 cycleB0
     { cycleB0 with cycle_index := 1 } (.vStr "Idle") (.vStr "Setup") (.vStr "Setup") 1000
     (by decide) (by decide) (by decide) (by decide) (by decide) (by decide)⟩

/-- Claim C6: in cycle mode with a non-empty values list, a due tick first
sets `cycle_index = (cycle_index + 1) mod len(values)` and then outputs
`values[cycle_index]`; with values `[Idle, Setup, Auto, Alarm]` and the index
starting at 0, the first due tick yields `Setup`, the second `Auto`, the
third `Alarm` and the fourth `Idle`. -/
theorem c6_cycle_increment_before_use (env : Env) (b : SimBinding) (k : Int)
    (current v : Value) (vs : List Value)
    (hm : modeOf b = "cycle")
    (hv : b.simulation.values = some (.ofList (v :: vs))) :
    computeValue env b k current =
      .ok ({ b with cycle_index := (b.cycle_index + 1) % ((v :: vs).length : Int) },
           (v :: vs).getD ((b.cycle_index + 1) % ((v :: vs).length : Int)).toNat (.vInt 0)) ∧
    tickBinding envOk 1000 1 cycleB0 (.vStr "Idle") = .ok (cycleB1, .vStr "Setup") ∧
    tickBinding envOk 1000 2 cycleB1 (.vStr "Setup") = .ok (cycleB2, .vStr "Auto") ∧
    tickBinding envOk 1000 3 cycleB2 (.vStr "Auto") = .ok (cycleB3, .vStr "Alarm") ∧
    tickBinding envOk 1000 4 cycleB3 (.vStr "Alarm") = .ok (cycleB4, .vStr "Idle") := by
  refine ⟨?_, ?_, ?_, ?_, ?_⟩
  · unfold computeValue
    simp [hm, hv]
  · rw [tickBinding_ok_eval envOk 1000 1 cycleB0 { cycleB0 with cycle_index := 1 }
        (.vStr "Idle") (.vStr "Setup") (.vStr "Setup") 1000
        (by decide) (by decide) (by decide) (by decide) (by decide) (by decide)]
    rw [show (1 : ℚ) + ((1000 : Int) : ℚ) / 1000 = 2 from by norm_num]
    rfl
  · rw [tickBinding_ok_eval envOk 1000 2 cycleB1 { cycleB1 with cycle_index := 2 }
        (.vStr "Setup") (.vStr "Auto") (.vStr "Auto") 1000
        (by decide) (by decide) (by decide) (by decide) (by decide) (by decide)]
    rw [show (2 : ℚ) + ((1000 : Int) : ℚ) / 1000 = 3 from by norm_num]
    rfl
  · rw [tickBinding_ok_eval envOk 1000 3 cycleB2 { cycleB2 with cycle_index := 3 }
        (.vStr "Auto") (.vStr "Alarm") (.vStr "Alarm") 1000
        (by decide) (by decide) (by decide) (by decide) (by decide) (by decide)]
    rw [show (3 : ℚ) + ((1000 : Int) : ℚ) / 1000 = 4 from by norm_num]
    rfl
  · rw [tickBinding_ok_eval envOk 1000 4 cycleB3 { cycleB3 with cycle_index := 0 }
        (.vStr "Alarm") (.vStr "Idle") (.vStr "Idle") 1000
        (by decide) (by decide) (by decide) (by decide) (by decide) (by decide)]
    rw [show (4 : ℚ) + ((1000 : Int) : ℚ) / 1000 = 5 from by norm_num]
    rfl

/-- Witness for `c6_cycle_increment_before_use` at the example cycle binding:
the first due tick computes `Setup`, the element at index `(0 + 1) % 4 = 1`. -/
theorem c6_cycle_increment_before_use_witness :
    modeOf cycleB0 = "cycle" ∧
    cycleB0.simulation.values =
      some (.ofList [.vStr "Idle", .vStr "Setup", .vStr "Auto", .vStr "Alarm"]) ∧
    computeValue envOk cycleB0 1000 (.vStr "Idle") =
      .ok ({ cycleB0 with cycle_index :=
               (cycleB0.cycle_index + 1) %
                 (([Value.vStr "Idle", .vStr "Setup", .vStr "Auto", .vStr "Alarm"].length : Int)) },
           [Value.vStr "Idle", .vStr "Setup", .vStr "Auto", .vStr "Alarm"].getD
             ((cycleB0.cycle_index + 1) %
               (([Value.vStr "Idle", .vStr "Setup", .vStr "Auto", .vStr "Alarm"].length : Int))).toNat
             (.vInt 0)) :=
  ⟨by decide, by decide,
   (c6_cycle_increment_before_use envOk cycleB0 1000 (.vStr "Idle") (.vStr "Idle")
       [.vStr "Setup", .vStr "Auto", .vStr "Alarm"] (by decide) (by decide)).1⟩

/-- Claim C7: ramp outputs `current + step`, except that overshoot
(`current + step > max`) resets to `min` and otherwise undershoot
(`current + step < min`) resets to `max`; with `min = 0`, `max = 3000`,
`step = 150`, from 2850 the next value is 3000 (no wrap) and from 3000 it
wraps to 0. -/
theorem c7_ramp_wraparound (env : Env) (b : SimBinding) (k : Int) (current : Value)
    (s mn mx c : ℚ)
    (hm : modeOf b = "ramp")
    (hstep : pyFloat (b.simulation.step.getD (.vFloat 1)) = .ok s)
    (hmin : pyFloat (b.simulation.min.getD (.vFloat 0)) = .ok mn)
    (hmax : pyFloat (b.simulation.max.getD (.vFloat 100)) = .ok mx)
    (hcur : pyFloat current = .ok c) :
    computeValue env b k current =
      .ok (b, .vFloat (if c + s > mx then mn else if c + s < mn then mx else c + s)) ∧
    computeValue envOk rampB k (.vFloat 2850) = .ok (rampB, .vFloat 3000) ∧
    computeValue envOk rampB k (.vFloat 3000) = .ok (rampB, .vFloat 0) := by
  have hgen : ∀ (env1 : Env) (b1 : SimBinding) (k1 : Int) (cv : Value) (s1 mn1 mx1 c1 : ℚ),
      modeOf b1 = "ramp" →
      pyFloat (b1.simulation.step.getD (.vFloat 1)) = .ok s1 →
      pyFloat (b1.simulation.min.getD (.vFloat 0)) = .ok mn1 →
      pyFloat (b1.simulation.max.getD (.vFloat 100)) = .ok mx1 →
      pyFloat cv = .ok c1 →
      computeValue env1 b1 k1 cv =
        .ok (b1, .vFloat (if c1 + s1 > mx1 then mn1
                          else if c1 + s1 < mn1 then mx1 else c1 + s1)) := by
    intro env1 b1 k1 cv s1 mn1 mx1 c1 hm1 hstep1 hmin1 hmax1 hcur1
    unfold computeValue
    by_cases h1 : c1 + s1 > mx1
    · simp [hm1, hstep1, hmin1, hmax1, hcur1, h1, lt_irrefl]
    · simp [hm1, hstep1, hmin1, hmax1, hcur1, h1]
  refine ⟨hgen env b k current s mn mx c hm hstep hmin hmax hcur, ?_, ?_⟩
  · rw [hgen envOk rampB k (.vFloat 2850) 150 0 3000 2850
        (by decide) (by decide) (by decide) (by decide) (by decide)]
    norm_num
  · rw [hgen envOk rampB k (.vFloat 3000) 150 0 3000 3000
        (by decide) (by decide) (by decide) (by decide) (by decide)]
    norm_num

/-- Witness for `c7_ramp_wraparound` at the example ramp binding from the
current value 2850. -/
theorem c7_ramp_wraparound_witness :
    modeOf rampB = "ramp" ∧
    pyFloat (rampB.simulation.step.getD (.vFloat 1)) = .ok 150 ∧
    pyFloat (rampB.simulation.min.getD (.vFloat 0)) = .ok 0 ∧
    pyFloat (rampB.simulation.max.getD (.vFloat 100)) = .ok 3000 ∧
    pyFloat (.vFloat 2850) = .ok 2850 ∧
    computeValue envOk rampB 800 (.vFloat 2850) =
      .ok (rampB, .vFloat (if (2850 : ℚ) + 150 > 3000 then 0
                           else if (2850 : ℚ) + 150 < 0 then 3000 else 2850 + 150)) :=
  ⟨by decide, by decide, by decide, by decide, by decide,
   (c7_ramp_wraparound envOk rampB 800 (.vFloat 2850) 150 0 3000 2850
       (by decide) (by decide) (by decide) (by decide) (by decide)).1⟩

/-- Claim C8 counterexample: a due bool-typed binding with an unrecognized
mode and a successful read of the integer 2 ends the tick with the node
holding `True`, not the value that was read — the tick still writes the
type-coerced value back. -/
theorem c8_counterexample :
    tickBinding envOk 1000 0 holdBoolB (.vInt 2) =
      .ok ({ holdBoolB with next_due := 1 }, .vBool true) ∧
    Value.vBool true ≠ Value.vInt 2 := by
  refine ⟨?_, by decide⟩
  rw [tickBinding_ok_eval envOk 1000 0 holdBoolB holdBoolB (.vInt 2) (.vInt 2) (.vBool true)
      1000 (by decide) (by decide) (by decide) (by decide) (by decide) (by decide)]
  rw [show (0 : ℚ) + ((1000 : Int) : ℚ) / 1000 = 1 from by norm_num]

/-- Claim C8 (amended): for a due binding in an empty or unknown mode the
generator leaves the value unchanged (`new_value = current`), and the tick
then writes back `_cast(dtype, current)`: afterwards the node holds the
type-coerced read value (equal to the read value exactly when coercion fixes
it, e.g. when it is already of the declared type), or the original value if
the write fails. -/
theorem c8_unknown_mode_keeps_value (env : Env) (defaultTickMs : Int) (now : ℚ)
    (b : SimBinding) (nodeVal c : Value) (k : Int)
    (hk : pyInt (b.simulation.interval_ms.getD (.vInt defaultTickMs)) = .ok k)
    (hdue : b.next_due ≤ now)
    (hr : env.readFail = false)
    (hm : modeOf b ∉
      (["toggle", "random_walk", "random_choice", "cycle", "ramp", "sine"] : List String))
    (hcast : pyCast b.dtype nodeVal = .ok c) :
    computeValue env b k nodeVal = .ok (b, nodeVal) ∧
    tickBinding env defaultTickMs now b nodeVal =
      .ok ({ b with next_due := now + (k : ℚ) / 1000 },
           if env.writeFail then nodeVal else c) := by
  simp only [List.mem_cons, List.mem_singleton, not_or] at hm
  obtain ⟨h1, h2, h3, h4, h5, h6, -⟩ := hm
  have hcv : computeValue env b k nodeVal = .ok (b, nodeVal) := by
    unfold computeValue
    simp [h1, h2, h3, h4, h5, h6]
  refine ⟨hcv, ?_⟩
  unfold tickBinding
  rw [hk]
  simp [not_lt.2 hdue, hr, hcv, hcast]

/-- Witness for `c8_unknown_mode_keeps_value`: a string-typed binding in an
unknown mode whose read value `"x"` is already of the declared type keeps it
through the tick. -/
theorem c8_unknown_mode_keeps_value_witness :
    pyInt (holdStrB.simulation.interval_ms.getD (.vInt 1000)) = .ok 1000 ∧
    holdStrB.next_due ≤ 0 ∧ envOk.readFail = false ∧
    modeOf holdStrB ∉
      (["toggle", "random_walk", "random_choice", "cycle", "ramp", "sine"] : List String) ∧
    pyCast holdStrB.dtype (.vStr "x") = .ok (.vStr "x") ∧
    (computeValue envOk holdStrB 1000 (.vStr "x") = .ok (holdStrB, .vStr "x") ∧
     tickBinding envOk 1000 0 holdStrB (.vStr "x") =
       .ok ({ holdStrB with next_due := 0 + (1000 : ℚ) / 1000 },
            if envOk.writeFail then .vStr "x" else .vStr "x")) :=
  ⟨by decide, by decide, by decide, by decide, by decide,
   c8_unknown_mode_keeps_value envOk 1000 0 holdStrB (.vStr "x") (.vStr "x") 1000
     (by decide) (by decide) (by decide) (by decide) (by decide)⟩

/-- Claim C9 counterexample: a due binding whose configured `interval_ms` is
negative (here −2000) has its `next_due` moved backward by a successful tick,
from 0 to −2. -/
theorem c9_counterexample :
    tickBinding envOk 1000 0 negIntervalB (.vBool false) =
      .ok ({ negIntervalB with next_due := -2 }, .vBool true) ∧
    ({ negIntervalB with next_due := (-2 : ℚ) } : SimBinding).next_due <
      negIntervalB.next_due := by
  refine ⟨?_, by norm_num [negIntervalB]⟩
  rw [tickBinding_ok_eval envOk 1000 0 negIntervalB negIntervalB (.vBool false) (.vBool true)
      (.vBool true) (-2000) (by decide) (by decide) (by decide) (by decide) (by decide)
      (by decide)]
  rw [show (0 : ℚ) + (((-2000 : Int)) : ℚ) / 1000 = -2 from by norm_num]

/-- Claim C9 (amended): for a binding whose effective `interval_ms` is
nonnegative, `next_due` never decreases: whenever the tick body returns
normally, the returned binding's `next_due` is at least the old one. -/
theorem c9_next_due_monotone (env : Env) (defaultTickMs : Int) (now : ℚ)
    (b b' : SimBinding) (nodeVal nodeVal' : Value) (k : Int)
    (hk : pyInt (b.simulation.interval_ms.getD (.vInt defaultTickMs)) = .ok k)
    (hknn : 0 ≤ k)
    (hres : tickBinding env defaultTickMs now b nodeVal = .ok (b', nodeVal')) :
    b.next_due ≤ b'.next_due := by
  unfold tickBinding at hres
  rw [hk] at hres
  by_cases hlt : now < b.next_due
  · simp [hlt] at hres
    rw [← hres.1]
  · cases hr : env.readFail with
    | true =>
      simp [hlt, hr] at hres
      rw [← hres.1]
    | false =>
      cases hcomp : computeValue env b k nodeVal with
      | error e =>
        simp [hlt, hr, hcomp] at hres
      | ok r =>
        cases hcast : pyCast b.dtype r.2 with
        | error e =>
          simp [hlt, hr, hcomp, hcast] at hres
        | ok c =>
          simp [hlt, hr, hcomp, hcast] at hres
          rw [← hres.1]
          have hq : (0 : ℚ) ≤ (k : ℚ) / 1000 := by
            have hk0 : (0 : ℚ) ≤ (k : ℚ) := by exact_mod_cast hknn
            positivity
          have hnd : b.next_due ≤ now := not_lt.1 hlt
          simpa using le_trans hnd (by linarith)

/-- Witness for `c9_next_due_monotone`: the cycle example binding's first due
tick moves `next_due` from 1 to 2. -/
theorem c9_next_due_monotone_witness :
    pyInt (cycleB0.simulation.interval_ms.getD (.vInt 1000)) = .ok 1000 ∧
    (0 : Int) ≤ 1000 ∧
    tickBinding envOk 1000 1 cycleB0 (.vStr "Idle") = .ok (cycleB1, .vStr "Setup") ∧
    cycleB0.next_due ≤ cycleB1.next_due := by
  have htick : tickBinding envOk 1000 1 cycleB0 (.vStr "Idle") =
      .ok (cycleB1, .vStr "Setup") := by
    rw [tickBinding_ok_eval envOk 1000 1 cycleB0 { cycleB0 with cycle_index := 1 }
        (.vStr "Idle") (.vStr "Setup") (.vStr "Setup") 1000
        (by decide) (by decide) (by decide) (by decide) (by decide) (by decide)]
    rw [show (1 : ℚ) + ((1000 : Int) : ℚ) / 1000 = 2 from by norm_num]
    rfl
  exact ⟨by decide, by decide, htick,
    c9_next_due_monotone envOk 1000 1 cycleB0 cycleB1 (.vStr "Idle") (.vStr "Setup") 1000
      (by decide) (by decide) htick⟩

end OpcuaSim
